import Mathlib

/-!
Shallow embedding of `src/webhook_tester/webhook_tester.py` (class `WebhookApp`):
the order-form state, the field-dependency handlers (`on_type_change`,
`on_close_position_toggle`, `clear_form`), the validator (`validate_input`)
and the payload construction inside `send_webhook`.

Tk `StringVar`s hold strings, so every form field is a `String`; the
`BooleanVar` for close-position is a `Bool`.  Widget enabled/disabled state
is carried as the literal Tk state strings the source assigns
("readonly" / "disabled" / "normal").
-/

namespace WebhookTester

/-- The module-level constant `AUTH_TOKEN` (webhook_tester.py line 10). -/
def AUTH_TOKEN : String := "z8V%kewzQ%m%XKdMJGdWtbX8!V8ZKqHz"

/-- `self.trading_pairs` from `WebhookApp.__init__` (lines 27-31); an unknown
key yields `[]`, mirroring `self.trading_pairs.get(trade_type, [])`. -/
def trading_pairs : String → List String
  | "spot" => ["BTC-USDT", "ETH-USDT"]
  | "perps" => ["BTC-USDT-SWAP", "ETH-USDT-SWAP", "BTC-USD-SWAP", "ETH-USD-SWAP"]
  | "invperps" => ["BTC-USD-SWAP", "ETH-USD-SWAP"]
  | _ => []

/-- The form's value state: the eight Tk variables of `self.variables`
(lines 36-45). -/
structure FormState where
  exchange : String
  tradeType : String
  symbol : String
  side : String
  qty : String
  marginMode : String
  leverage : String
  closePosition : Bool
  deriving Repr, DecidableEq

/-- The app state: form values plus the Tk widget states the handlers mutate
(side dropdown, qty entry, margin-mode dropdown, leverage dropdown). -/
structure AppState where
  form : FormState
  sideState : String
  qtyState : String
  marginModeState : String
  leverageState : String
  deriving Repr, DecidableEq

/-- The state right after `__init__`/`build_form`: variable defaults from
lines 36-45; the side/margin/leverage comboboxes are created "readonly" and
the qty `ttk.Entry` is in its default "normal" state. -/
def initState : AppState :=
  { form := { exchange := "okx", tradeType := "spot", symbol := "", side := "",
              qty := "", marginMode := "cross", leverage := "10",
              closePosition := false },
    sideState := "readonly", qtyState := "normal",
    marginModeState := "readonly", leverageState := "readonly" }

/-- `WebhookApp.on_type_change` (lines 175-195), reading the already-updated
`type_var`: refill the symbol list and, when non-empty, set the symbol to its
first entry; then reset margin mode / leverage and their widget states
according to whether the type is "spot". -/
def on_type_change (s : AppState) : AppState :=
  let trade_type := s.form.tradeType
  let symbol_pairs := trading_pairs trade_type
  let form1 :=
    match symbol_pairs with
    | [] => s.form
    | p :: _ => { s.form with symbol := p }
  if trade_type = "spot" then
    { s with form := { form1 with marginMode := "cash", leverage := "1" },
             marginModeState := "disabled", leverageState := "disabled" }
  else
    { s with form := { form1 with marginMode := "cross", leverage := "10" },
             marginModeState := "readonly", leverageState := "readonly" }

/-- A user selecting a trade type: the combobox writes `type_var`, then the
`<<ComboboxSelected>>` binding fires `on_type_change`. -/
def selectType (s : AppState) (t : String) : AppState :=
  on_type_change { s with form := { s.form with tradeType := t } }

/-- `WebhookApp.on_close_position_toggle` (lines 197-205), reading the
already-updated `close_position_var`: only the side dropdown and qty entry
widget states change; no variable value is written. -/
def on_close_position_toggle (s : AppState) : AppState :=
  let is_closing := s.form.closePosition
  { s with sideState := if is_closing then "disabled" else "readonly",
           qtyState := if is_closing then "disabled" else "normal" }

/-- A user toggling the Close Position checkbutton: the checkbutton writes
`close_position_var`, then its `command` fires `on_close_position_toggle`. -/
def toggleClosePosition (s : AppState) (b : Bool) : AppState :=
  on_close_position_toggle { s with form := { s.form with closePosition := b } }

/-- `WebhookApp.clear_form` (lines 207-213): every `StringVar` is set to "",
the `BooleanVar` to false, then `on_type_change` runs on the cleared state. -/
def clear_form (s : AppState) : AppState :=
  on_type_change
    { s with form := { exchange := "", tradeType := "", symbol := "", side := "",
                       qty := "", marginMode := "", leverage := "",
                       closePosition := false } }

/-! ### Python numeric parsing

`validate_input` calls the built-in `float(str)` and `send_webhook` calls
`int(str)`.  `PyFloat` and `py_float` model `float(str)`: ASCII whitespace
trimming, an optional sign, the case-insensitive words inf/infinity/nan, and
otherwise a decimal mantissa (integer part, optional fraction) with an
optional e/E exponent.  The decimal value is kept exact as a rational rather
than rounded to binary64; PEP 515 underscore grouping and non-ASCII digits
are not modelled.  `float("-nan")` compares exactly like `float("nan")`, so
both map to `PyFloat.nan`. -/

/-- Result of a successful Python `float(str)`: NaN, a signed infinity
(`true` = negative), or a finite value kept exact as a rational. -/
inductive PyFloat where
  | nan : PyFloat
  | inf : Bool → PyFloat
  | finite : ℚ → PyFloat
  deriving Repr, DecidableEq

/-- Value of a digit string read in base 10. -/
def digitsVal (l : List Char) : Nat :=
  l.foldl (fun a c => 10 * a + (c.toNat - 48)) 0

/-- Split a leading run of ASCII digits from the rest. -/
def splitDigits (l : List Char) : List Char × List Char :=
  (l.takeWhile Char.isDigit, l.dropWhile Char.isDigit)

/-- Exact rational value of a parsed decimal `(sign) ip . fp` times
`10 ^ e`: the digit string `ip ++ fp` read as an integer, scaled by
`10 ^ (e - |fp|)`. -/
def decValue (neg : Bool) (ip fp : List Char) (e : Int) : ℚ :=
  let d : Int := (digitsVal (ip ++ fp) : Int)
  let d : Int := if neg then -d else d
  match e - (fp.length : Int) with
  | Int.ofNat n => mkRat (d * ((10 ^ n : Nat) : Int)) 1
  | Int.negSucc n => mkRat d (10 ^ (n + 1))

/-- Parse a sign-stripped decimal with optional fraction and optional e/E
exponent; the whole input must be consumed and the mantissa must contain at
least one digit. -/
def parseDecimal (neg : Bool) (l : List Char) : Option ℚ :=
  let (ip, r1) := splitDigits l
  let (fp, r2) :=
    match r1 with
    | '.' :: rest => splitDigits rest
    | _ => ([], r1)
  if ip.isEmpty && fp.isEmpty then none
  else
    match r2 with
    | [] => some (decValue neg ip fp 0)
    | c :: rest =>
      if c = 'e' ∨ c = 'E' then
        let (eneg, rest2) :=
          match rest with
          | '+' :: t => (false, t)
          | '-' :: t => (true, t)
          | _ => (false, rest)
        let (eds, rem) := splitDigits rest2
        if eds.isEmpty ∨ ¬ rem.isEmpty then none
        else
          let e : Int := if eneg then -(digitsVal eds : Int) else (digitsVal eds : Int)
          some (decValue neg ip fp e)
      else none

/-- Strip leading and trailing whitespace. -/
def trimWs (l : List Char) : List Char :=
  ((l.dropWhile Char.isWhitespace).reverse.dropWhile Char.isWhitespace).reverse

/-- Model of Python's built-in `float(str)` (see the section comment). -/
def py_float (s : String) : Option PyFloat :=
  let l := trimWs s.toList
  let (neg, body) :=
    match l with
    | '+' :: t => (false, t)
    | '-' :: t => (true, t)
    | _ => (false, l)
  let low := body.map Char.toLower
  if low = ['i', 'n', 'f'] ∨ low = ['i', 'n', 'f', 'i', 'n', 'i', 't', 'y'] then
    some (PyFloat.inf neg)
  else if low = ['n', 'a', 'n'] then
    some PyFloat.nan
  else
    match parseDecimal neg body with
    | some q => some (PyFloat.finite q)
    | none => none

/-- Model of Python's built-in `int(str)` as used on `leverage_var`:
whitespace trimming, optional sign, a non-empty run of ASCII digits. -/
def py_int (s : String) : Option Int :=
  let l := trimWs s.toList
  let (neg, ds) :=
    match l with
    | '+' :: t => (false, t)
    | '-' :: t => (true, t)
    | _ => (false, l)
  if ds.isEmpty || ¬ ds.all Char.isDigit then none
  else some (if neg then -(digitsVal ds : Int) else (digitsVal ds : Int))

/-- Python's chained `0 < pct <= 100` (line 235) on a parsed float: both
comparisons are false on NaN, `inf <= 100` is false, `0 < -inf` is false. -/
def pctInRange : PyFloat → Bool
  | PyFloat.finite q => decide (0 < q ∧ q ≤ 100)
  | _ => false

/-- Python's `amt <= 0` (line 242) on a parsed float: false on NaN and on
`+inf`, true on `-inf`. -/
def amtNonPos : PyFloat → Bool
  | PyFloat.finite q => decide (q ≤ 0)
  | PyFloat.inf neg => neg
  | PyFloat.nan => false

/-- `qty.endswith('%')` (line 232). -/
def endsPercent (s : String) : Bool :=
  decide (s.toList.getLast? = some '%')

/-- `qty[:-1]` (line 234): the text with its last character removed. -/
def dropPct (s : String) : String :=
  String.mk s.toList.dropLast

/-- `WebhookApp.validate_input` (lines 215-247): sequential checks returning
`(ok, message)`, short-circuiting at the first failure; side and quantity
checks run only when close-position is off. -/
def validate_input (s : FormState) : Bool × String :=
  if s.exchange = "" then (false, "Please select an exchange")
  else if s.tradeType = "" then (false, "Please select a trade type")
  else if s.symbol = "" then (false, "Please select a trading pair")
  else if s.closePosition then (true, "")
  else if s.side = "" then (false, "Please select a side")
  else if s.qty = "" then (false, "Please enter a quantity")
  else if endsPercent s.qty then
    match py_float (dropPct s.qty) with
    | some v =>
        if pctInRange v then (true, "")
        else (false, "Percentage must be between 0 and 100")
    | none => (false, "Invalid percentage format")
  else
    match py_float s.qty with
    | some v =>
        if amtNonPos v then (false, "Quantity must be greater than 0")
        else (true, "")
    | none => (false, "Invalid quantity format")

/-- A JSON scalar as placed into the payload dict. -/
inductive JValue where
  | str : String → JValue
  | int : Int → JValue
  | bool : Bool → JValue
  deriving Repr, DecidableEq

/-- First value bound to key `k`, mirroring presence of a key in the Python
dict (insertion never duplicates a key here). -/
def getField : List (String × JValue) → String → Option JValue
  | [], _ => none
  | kv :: r, k => if kv.fst = k then some kv.snd else getField r k

/-- Whether the payload dict has key `k`. -/
def hasField (p : List (String × JValue)) (k : String) : Bool :=
  (getField p k).isSome

/-- The payload construction of `WebhookApp.send_webhook` (lines 256-275):
the base dict with `authToken`, then `leverage` (via `int(...)`, which can
raise — modelled as `none`) for non-spot types, then either `side`/`qty` or
`closePosition: true`. -/
def buildPayload (st : FormState) : Option (List (String × JValue)) :=
  let base : List (String × JValue) :=
    [("authToken", JValue.str AUTH_TOKEN),
     ("exchange", JValue.str st.exchange),
     ("symbol", JValue.str st.symbol),
     ("type", JValue.str st.tradeType),
     ("marginMode", JValue.str st.marginMode)]
  let withLev : Option (List (String × JValue)) :=
    if st.tradeType = "spot" then some base
    else
      match py_int st.leverage with
      | some n => some (base ++ [("leverage", JValue.int n)])
      | none => none
  match withLev with
  | none => none
  | some p =>
      some (if st.closePosition then p ++ [("closePosition", JValue.bool true)]
            else p ++ [("side", JValue.str st.side), ("qty", JValue.str st.qty)])

/-- `WebhookApp.send_webhook` up to the network call: validate, then build
the payload that would be posted (none when validation fails). -/
def send_webhook (s : FormState) : Option (List (String × JValue)) :=
  if (validate_input s).fst then buildPayload s else none

/-! ### Concrete states and payloads used by the claim theorems -/

/-- A validated open spot order (C1). -/
def c1s : FormState :=
  ⟨"okx", "spot", "BTC-USDT", "buy", "50%", "cash", "1", false⟩

/-- The payload `send_webhook` builds from `c1s` (C1). -/
def c1pay : List (String × JValue) :=
  [("authToken", JValue.str AUTH_TOKEN), ("exchange", JValue.str "okx"),
   ("symbol", JValue.str "BTC-USDT"), ("type", JValue.str "spot"),
   ("marginMode", JValue.str "cash"),
   ("side", JValue.str "buy"), ("qty", JValue.str "50%")]

/-- An app state on perps with the second inverse-perps pair selected (C3). -/
def c3s : AppState :=
  { initState with
    form := { initState.form with tradeType := "perps", symbol := "ETH-USD-SWAP" } }

/-- A state with everything valid except the unset symbol (C4 witness). -/
def c4w : FormState :=
  ⟨"okx", "spot", "", "buy", "50%", "cash", "1", false⟩

/-- Exchange unset, every other field valid (C5). -/
def c5sA : FormState := ⟨"", "spot", "BTC-USDT", "buy", "50%", "cash", "1", false⟩

/-- Trade type unset (C5). -/
def c5sB : FormState := ⟨"okx", "", "BTC-USDT", "buy", "50%", "cash", "1", false⟩

/-- Symbol unset (C5). -/
def c5sC : FormState := ⟨"okx", "spot", "", "", "", "cash", "1", false⟩

/-- Side unset while not closing (C5). -/
def c5sD : FormState := ⟨"okx", "spot", "BTC-USDT", "", "", "cash", "1", false⟩

/-- Quantity empty while not closing (C5). -/
def c5sE : FormState := ⟨"okx", "spot", "BTC-USDT", "buy", "", "cash", "1", false⟩

/-- Non-numeric percentage text (C6 counterexample). -/
def c6s : FormState := ⟨"okx", "spot", "BTC-USDT", "buy", "abc%", "cash", "1", false⟩

/-- A valid 50-percent quantity (C6 witness). -/
def c6w : FormState := ⟨"okx", "perps", "ETH-USDT-SWAP", "sell", "50%", "cross", "10", false⟩

/-- Close-position state with empty side and quantity (C7). -/
def c7s : FormState := ⟨"okx", "perps", "BTC-USDT-SWAP", "", "", "cross", "10", true⟩

/-- The payload `send_webhook` builds from `c7s` (C7). -/
def c7pay : List (String × JValue) :=
  [("authToken", JValue.str AUTH_TOKEN), ("exchange", JValue.str "okx"),
   ("symbol", JValue.str "BTC-USDT-SWAP"), ("type", JValue.str "perps"),
   ("marginMode", JValue.str "cross"), ("leverage", JValue.int 10),
   ("closePosition", JValue.bool true)]

/-- A validated open perps order with absolute quantity "1.5" (C8). -/
def c8s : FormState := ⟨"okx", "perps", "BTC-USDT-SWAP", "buy", "1.5", "cross", "10", false⟩

/-- The payload `send_webhook` builds from `c8s` (C8). -/
def c8pay : List (String × JValue) :=
  [("authToken", JValue.str AUTH_TOKEN), ("exchange", JValue.str "okx"),
   ("symbol", JValue.str "BTC-USDT-SWAP"), ("type", JValue.str "perps"),
   ("marginMode", JValue.str "cross"), ("leverage", JValue.int 10),
   ("side", JValue.str "buy"), ("qty", JValue.str "1.5")]

/-- Quantity text "nan" with every other field valid (C10). -/
def c10s : FormState := ⟨"okx", "perps", "BTC-USDT-SWAP", "buy", "nan", "cross", "10", false⟩

/-- Quantity text "inf" with every other field valid (C10). -/
def c10inf : FormState := ⟨"okx", "perps", "BTC-USDT-SWAP", "buy", "inf", "cross", "10", false⟩

/-- The payload `send_webhook` builds from `c10s` (C10). -/
def c10pay : List (String × JValue) :=
  [("authToken", JValue.str AUTH_TOKEN), ("exchange", JValue.str "okx"),
   ("symbol", JValue.str "BTC-USDT-SWAP"), ("type", JValue.str "perps"),
   ("marginMode", JValue.str "cross"), ("leverage", JValue.int 10),
   ("side", JValue.str "buy"), ("qty", JValue.str "nan")]

/-! ## Claim theorems -/

/-- C1: the claim is false on the code — `send_webhook` puts `authToken`
into the payload itself.  At the accepted state `c1s` the built document
contains an `authToken` field. -/
theorem c1_counterexample :
    (validate_input c1s).fst = true ∧ buildPayload c1s = some c1pay ∧
    hasField c1pay "authToken" = true ∧
    getField c1pay "authToken" = some (JValue.str AUTH_TOKEN) := by
  decide

/-- C1 (amended): every payload the payload-construction step produces
contains an `authToken` field bound to the static module credential. -/
theorem c1_payload_includes_auth_token (st : FormState)
    (p : List (String × JValue)) (h : buildPayload st = some p) :
    getField p "authToken" = some (JValue.str AUTH_TOKEN) := by
  by_cases hspot : st.tradeType = "spot"
  · by_cases hclose : st.closePosition = true <;>
      simp [buildPayload, hspot, hclose] at h <;>
      subst h <;> simp [getField]
  · rcases hl : py_int st.leverage with _ | n
    · simp [buildPayload, hspot, hl] at h
    · by_cases hclose : st.closePosition = true <;>
        simp [buildPayload, hspot, hclose, hl] at h <;>
        subst h <;> simp [getField]

/-- C1 witness: the amended theorem applied at the concrete state `c1s`. -/
theorem c1_witness : getField c1pay "authToken" = some (JValue.str AUTH_TOKEN) :=
  c1_payload_includes_auth_token c1s c1pay (by decide)

/-- C2: the claim is false on the code — the initial state created in
`__init__` has `tradeType = "spot"` together with `marginMode = "cross"` and
`leverage = "10"`. -/
theorem c2_counterexample :
    initState.form.tradeType = "spot" ∧
    ¬ (initState.form.marginMode = "cash" ∧ initState.form.leverage = "1") := by
  decide

/-- C2 (amended): after every trade-type change that selects "spot",
`marginMode = "cash"`, `leverage = "1"` and the margin widgets are disabled;
the invariant fails only at the initial state, which starts with
spot/cross/10. -/
theorem c2_spot_margin_reset (s : AppState) :
    (selectType s "spot").form.tradeType = "spot" ∧
    (selectType s "spot").form.marginMode = "cash" ∧
    (selectType s "spot").form.leverage = "1" ∧
    (selectType s "spot").marginModeState = "disabled" ∧
    (selectType s "spot").leverageState = "disabled" := by
  simp [selectType, on_type_change, trading_pairs]

/-- C3: the claim is false on the code — switching from perps (symbol
"ETH-USD-SWAP") to invperps replaces the symbol with the first eligible pair
even though "ETH-USD-SWAP" is in the invperps eligible set. -/
theorem c3_counterexample :
    c3s.form.symbol ∈ trading_pairs "invperps" ∧
    (selectType c3s "invperps").form.symbol ≠ c3s.form.symbol ∧
    (selectType c3s "invperps").form.symbol = "BTC-USD-SWAP" := by
  decide

/-- C3 (amended): a trade-type change always resets the symbol to the first
element of the new type's eligible list whenever that list is non-empty,
regardless of whether the current symbol is a member; only for an unknown
type (empty list) is the symbol left unchanged. -/
theorem c3_symbol_always_reset (s : AppState) (t : String) :
    (selectType s t).form.symbol =
      match trading_pairs t with
      | [] => s.form.symbol
      | p :: _ => p := by
  by_cases ht : t = "spot"
  · subst ht; simp [selectType, on_type_change, trading_pairs]
  · rcases h : trading_pairs t with _ | ⟨p, r⟩ <;>
      simp [selectType, on_type_change, ht, h]

/-- C4: the claim is false on the code — `validate_input` never checks
membership of the symbol in the active trade type's pair list: a state whose
set symbol is not eligible is accepted. -/
theorem c4_counterexample :
    (⟨"okx", "spot", "NOT-A-PAIR", "", "", "cash", "1", true⟩ : FormState).symbol ∉
      trading_pairs "spot" ∧
    validate_input ⟨"okx", "spot", "NOT-A-PAIR", "", "", "cash", "1", true⟩ = (true, "") := by
  decide

/-- C4 (amended): `validate_input` returns the missing-symbol message when
the symbol is unset (after exchange and trade type pass); it performs no
eligibility check on a set symbol. -/
theorem c4_missing_symbol_only (s : FormState)
    (he : s.exchange ≠ "") (ht : s.tradeType ≠ "") (hy : s.symbol = "") :
    validate_input s = (false, "Please select a trading pair") := by
  simp [validate_input, he, ht, hy]

/-- C4 witness: the amended theorem applied at the concrete state `c4w`. -/
theorem c4_witness : validate_input c4w = (false, "Please select a trading pair") :=
  c4_missing_symbol_only c4w (by decide) (by decide) (by decide)

/-- C5: `validate_input` short-circuits in the fixed order exchange, trade
type, symbol, then (only when not closing) side, quantity non-empty; each
stage's message is returned regardless of every later field. -/
theorem c5_validation_order (s : FormState) :
    (s.exchange = "" → validate_input s = (false, "Please select an exchange")) ∧
    (s.exchange ≠ "" → s.tradeType = "" →
      validate_input s = (false, "Please select a trade type")) ∧
    (s.exchange ≠ "" → s.tradeType ≠ "" → s.symbol = "" →
      validate_input s = (false, "Please select a trading pair")) ∧
    (s.exchange ≠ "" → s.tradeType ≠ "" → s.symbol ≠ "" → s.closePosition = false →
      s.side = "" → validate_input s = (false, "Please select a side")) ∧
    (s.exchange ≠ "" → s.tradeType ≠ "" → s.symbol ≠ "" → s.closePosition = false →
      s.side ≠ "" → s.qty = "" → validate_input s = (false, "Please enter a quantity")) := by
  refine ⟨fun h1 => ?_, fun h1 h2 => ?_, fun h1 h2 h3 => ?_,
    fun h1 h2 h3 h4 h5 => ?_, fun h1 h2 h3 h4 h5 h6 => ?_⟩ <;>
    simp [validate_input, *]

/-- C5 witness: the order theorem applied at five concrete states, each
failing exactly one stage while later fields stay valid or invalid. -/
theorem c5_witness :
    validate_input c5sA = (false, "Please select an exchange") ∧
    validate_input c5sB = (false, "Please select a trade type") ∧
    validate_input c5sC = (false, "Please select a trading pair") ∧
    validate_input c5sD = (false, "Please select a side") ∧
    validate_input c5sE = (false, "Please enter a quantity") := by
  refine ⟨(c5_validation_order c5sA).1 (by decide),
    (c5_validation_order c5sB).2.1 (by decide) (by decide),
    (c5_validation_order c5sC).2.2.1 (by decide) (by decide) (by decide),
    (c5_validation_order c5sD).2.2.2.1 (by decide) (by decide) (by decide)
      (by decide) (by decide),
    (c5_validation_order c5sE).2.2.2.2 (by decide) (by decide) (by decide)
      (by decide) (by decide) (by decide)⟩

/-- C6: the claim is false on the code — non-numeric text in percentage form
is rejected with the distinct message "Invalid percentage format", not the
claimed "Invalid quantity format". -/
theorem c6_counterexample :
    validate_input c6s = (false, "Invalid percentage format") ∧
    (validate_input c6s).snd ≠ "Invalid quantity format" := by
  decide

/-- C6 (amended): with all earlier checks passing and closing off, a
%-suffixed quantity whose prefix parses to a finite value v is accepted iff
0 < v ≤ 100 and rejected with the range message otherwise (NaN and the
infinities also fail the chained comparison); a plain token parsing to a
finite v is accepted when 0 < v and rejected with the positivity message
when v ≤ 0; non-numeric text is rejected with "Invalid percentage format"
in the % form and "Invalid quantity format" in the plain form. -/
theorem c6_quantity_checks (s : FormState)
    (he : s.exchange ≠ "") (ht : s.tradeType ≠ "") (hy : s.symbol ≠ "")
    (hc : s.closePosition = false) (hs : s.side ≠ "") (hq : s.qty ≠ "") :
    (endsPercent s.qty = true →
      (∀ v : ℚ, py_float (dropPct s.qty) = some (PyFloat.finite v) →
        (0 < v ∧ v ≤ 100 → validate_input s = (true, "")) ∧
        (¬ (0 < v ∧ v ≤ 100) →
          validate_input s = (false, "Percentage must be between 0 and 100"))) ∧
      (∀ b : Bool, py_float (dropPct s.qty) = some PyFloat.nan ∨
          py_float (dropPct s.qty) = some (PyFloat.inf b) →
        validate_input s = (false, "Percentage must be between 0 and 100")) ∧
      (py_float (dropPct s.qty) = none →
        validate_input s = (false, "Invalid percentage format"))) ∧
    (endsPercent s.qty = false →
      (∀ v : ℚ, py_float s.qty = some (PyFloat.finite v) →
        (0 < v → validate_input s = (true, "")) ∧
        (v ≤ 0 → validate_input s = (false, "Quantity must be greater than 0"))) ∧
      (py_float s.qty = none →
        validate_input s = (false, "Invalid quantity format"))) := by
  have hbase : validate_input s =
      if endsPercent s.qty then
        match py_float (dropPct s.qty) with
        | some v =>
            if pctInRange v then (true, "")
            else (false, "Percentage must be between 0 and 100")
        | none => (false, "Invalid percentage format")
      else
        match py_float s.qty with
        | some v =>
            if amtNonPos v then (false, "Quantity must be greater than 0")
            else (true, "")
        | none => (false, "Invalid quantity format") := by
    simp [validate_input, he, ht, hy, hc, hs, hq]
  refine ⟨fun hp => ⟨fun v hv => ⟨fun hin => ?_, fun hout => ?_⟩,
      fun b hsp => ?_, fun hn => ?_⟩,
    fun hp => ⟨fun v hv => ⟨fun hpos => ?_, fun hnp => ?_⟩, fun hn => ?_⟩⟩ <;>
    rw [hbase] <;> simp [hp]
  · rw [hv]; simp [pctInRange, hin]
  · rw [hv]; simp [pctInRange, hout]
  · rcases hsp with hsp | hsp <;> rw [hsp] <;> simp [pctInRange]
  · rw [hn]
  · rw [hv]; simp [amtNonPos, not_le.mpr hpos]
  · rw [hv]; simp [amtNonPos, hnp]
  · rw [hn]

/-- C6 witness: the amended theorem applied at the concrete state `c6w`
(quantity "50%", which parses to the in-range value 50). -/
theorem c6_witness : validate_input c6w = (true, "") :=
  (((c6_quantity_checks c6w (by decide) (by decide) (by decide) (by decide)
      (by decide) (by decide)).1 (by decide)).1 50 (by decide)).1 (by decide)

/-- C7: when close-position is on and exchange, trade type and symbol pass,
`validate_input` accepts with side and quantity never examined, and the
payload carries `closePosition: true` and no `side`/`qty` keys. -/
theorem c7_close_skips_side_qty (s : FormState)
    (he : s.exchange ≠ "") (ht : s.tradeType ≠ "") (hy : s.symbol ≠ "")
    (hc : s.closePosition = true) :
    validate_input s = (true, "") ∧
    ∀ p, buildPayload s = some p →
      getField p "closePosition" = some (JValue.bool true) ∧
      hasField p "side" = false ∧ hasField p "qty" = false := by
  refine ⟨by simp [validate_input, he, ht, hy, hc], fun p hp => ?_⟩
  by_cases hspot : s.tradeType = "spot"
  · simp [buildPayload, hspot, hc] at hp
    subst hp; simp [getField, hasField]
  · rcases hl : py_int s.leverage with _ | n
    · simp [buildPayload, hspot, hl] at hp
    · simp [buildPayload, hspot, hc, hl] at hp
      subst hp; simp [getField, hasField]

/-- C7 witness: the theorem applied at `c7s` (empty side and quantity) and
its concrete payload `c7pay`. -/
theorem c7_witness :
    validate_input c7s = (true, "") ∧
    getField c7pay "closePosition" = some (JValue.bool true) ∧
    hasField c7pay "side" = false ∧ hasField c7pay "qty" = false := by
  have h := c7_close_skips_side_qty c7s (by decide) (by decide) (by decide) (by decide)
  exact ⟨h.1, h.2 c7pay (by decide)⟩

/-- C8: for a validated state whose payload build succeeds, the payload has
a `leverage` key iff the trade type is not spot (bound to the integer parse
of the leverage text), and when not closing it has `side` and `qty` with the
quantity text passed through verbatim. -/
theorem c8_payload_fields (s : FormState) (p : List (String × JValue))
    (_hv : (validate_input s).fst = true) (hp : buildPayload s = some p) :
    (hasField p "leverage" = true ↔ s.tradeType ≠ "spot") ∧
    (s.tradeType ≠ "spot" →
      ∃ n : Int, py_int s.leverage = some n ∧
        getField p "leverage" = some (JValue.int n)) ∧
    (s.closePosition = false →
      getField p "side" = some (JValue.str s.side) ∧
      getField p "qty" = some (JValue.str s.qty)) := by
  by_cases hspot : s.tradeType = "spot"
  · by_cases hclose : s.closePosition = true <;>
      simp [buildPayload, hspot, hclose] at hp <;>
      subst hp <;> simp [getField, hasField, hspot, hclose]
  · rcases hl : py_int s.leverage with _ | n
    · simp [buildPayload, hspot, hl] at hp
    · by_cases hclose : s.closePosition = true <;>
        simp [buildPayload, hspot, hclose, hl] at hp <;>
        subst hp <;> simp [getField, hasField, hspot, hclose]

/-- C8 witness: the theorem applied at `c8s` (perps, quantity "1.5") and its
concrete payload `c8pay`. -/
theorem c8_witness :
    (hasField c8pay "leverage" = true ↔ c8s.tradeType ≠ "spot") ∧
    (c8s.tradeType ≠ "spot" →
      ∃ n : Int, py_int c8s.leverage = some n ∧
        getField c8pay "leverage" = some (JValue.int n)) ∧
    (c8s.closePosition = false →
      getField c8pay "side" = some (JValue.str c8s.side) ∧
      getField c8pay "qty" = some (JValue.str c8s.qty)) :=
  c8_payload_fields c8s c8pay (by decide) (by decide)

/-- C9: toggling close-position writes only the close flag and the widget
activation states; one toggle, and the false→true→false round trip, leave
the stored side and quantity values unchanged. -/
theorem c9_toggle_preserves_side_qty (s : AppState) (b : Bool) :
    (toggleClosePosition s b).form.side = s.form.side ∧
    (toggleClosePosition s b).form.qty = s.form.qty ∧
    (toggleClosePosition (toggleClosePosition s true) false).form.side = s.form.side ∧
    (toggleClosePosition (toggleClosePosition s true) false).form.qty = s.form.qty := by
  simp [toggleClosePosition, on_close_position_toggle]

/-- C10: quantity "nan" parses as a Python float, the rejection condition
`amt <= 0` is false on NaN, so the state is accepted and the payload carries
`qty: "nan"` verbatim; "inf" likewise passes. -/
theorem c10_nan_accepted :
    py_float c10s.qty = some PyFloat.nan ∧
    validate_input c10s = (true, "") ∧
    send_webhook c10s = some c10pay ∧
    getField c10pay "qty" = some (JValue.str "nan") ∧
    py_float c10inf.qty = some (PyFloat.inf false) ∧
    validate_input c10inf = (true, "") := by
  decide

end WebhookTester
